import Mathlib

/-!
Shallow embedding of the hyperparameter-tuning dispatch layer of
`gnn_tracking_experiments` (file `src/gnn_tracking_hpo/tune.py`), together with
theorems settling the specification claims about it.

Conventions of the embedding:

* Python dictionaries holding configuration values are modelled as association
  lists of `String × PyValue`.
* External collaborators that `tune.py` merely calls (the `pytimeparse.parse`
  time-string parser, the `get_points_to_evaluate` seed-queue loader, the
  `read_json` file reader, the server profile `della` and the user supplied
  `suggest_config` callable) are threaded through as explicit function or
  value parameters, so every theorem quantifies over their behaviour.
* Python exceptions (`ValueError` from `get_timeout_stopper`) are modelled
  with `Except`; a failed `assert` and `raise SystemExit` are outcome
  constructors of the `__call__` model.
* The ray configuration objects (`ASHAScheduler`, `OptunaSearch`,
  `CheckpointConfig`, `FailureConfig`, `RunConfig`, the stopper classes,
  `tune.Tuner`) are modelled as records of exactly the keyword arguments
  `tune.py` passes to them; fields that `tune.py` never sets and no claim
  mentions (wandb callbacks, sync config, log_to_file) are omitted.
-/

/-- A dynamically typed Python value, as stored in configuration dicts. -/
inductive PyValue
  | bool (b : Bool)
  | int (n : Int)
  | str (s : String)
  deriving DecidableEq, Repr

/-- A Python dict used as a trial configuration: an association list. -/
abbrev PyDict := List (String × PyValue)

/-- Python `s.endswith(t)`: `t` is a suffix of `s`. -/
def pyEndsWith (s t : String) : Bool := decide (t.data <:+ s.data)

/-- The literal `"_test"` appended to `dname` in test mode. -/
def testSuffix : String := "_test"

/-- The dict key `"test"` asserted by `simple_run_without_tune`. -/
def testKey : String := "test"

/-- The message of the `ValueError` raised by `get_timeout_stopper`. -/
def timeoutErrorMsg : String :=
  "Could not parse timeout. Try specifying a unit, e.g., 1h13m"

/-- Python truthiness of a dict lookup, as used by `assert config["test"]`:
a missing key (`KeyError`) and a falsy value both abort the run. -/
def pyTruthy : Option PyValue → Bool
  | some (.bool b) => b
  | some (.int n) => decide (n ≠ 0)
  | some (.str s) => decide (s ≠ "")
  | none => false

/-- `rt_stoppers_contrib.no_improvement.NoImprovementTrialStopper`, modelled as
the record of constructor arguments `tune.py` passes. -/
structure NoImprovementTrialStopper where
  metric : String
  patience : Nat
  mode : String
  grace_period : Nat
  deriving DecidableEq, Repr

/-- `ray.tune.stopper.TimeoutStopper`, record of its constructor argument
(the timeout in seconds). -/
structure TimeoutStopper where
  timeout : Int
  deriving DecidableEq, Repr

/-- `ray.tune.stopper.MaximumIterationStopper`, record of its constructor
argument (the iteration limit). -/
structure MaximumIterationStopper where
  max_iter : Nat
  deriving DecidableEq, Repr

/-- A ray `Stopper` instance: the three concrete classes `tune.py`
instantiates, plus `custom` for the caller-supplied `additional_stoppers`. -/
inductive Stopper
  | noImprovement (s : NoImprovementTrialStopper)
  | timeout (s : TimeoutStopper)
  | maxIteration (s : MaximumIterationStopper)
  | custom (id : Nat)
  deriving DecidableEq, Repr

/-- `ray.tune.stopper.CombinedStopper`: the tuple of constituent stoppers. -/
structure CombinedStopper where
  stoppers : List Stopper
  deriving DecidableEq, Repr

/-- Modelled from the spec: `CombinedStopper.__call__` of the external ray
library stops a trial as soon as ANY constituent stopper returns `True`
(logical OR across constituents). `verdict` abstracts the per-constituent
decision on the current trial history. -/
def CombinedStopper.should_stop (c : CombinedStopper) (verdict : Stopper → Bool) : Bool :=
  c.stoppers.any verdict

/-- `ray.tune.schedulers.ASHAScheduler`, record of the keyword arguments
`tune.py` passes. -/
structure ASHAScheduler where
  metric : String
  mode : String
  grace_period : Nat
  deriving DecidableEq, Repr

/-- `ray.tune.search.optuna.OptunaSearch`, record of the arguments `tune.py`
passes: the space is `functools.partial(suggest_config, test=..., fixed=...)`,
modelled by its two bound keyword arguments; `restored_from` records the
directory passed to `restore_from_dir`, if any. -/
structure OptunaSearch where
  space_test : Bool
  space_fixed : Option PyDict
  metric : String
  mode : String
  points_to_evaluate : List PyDict
  restored_from : Option String
  deriving DecidableEq, Repr

/-- `ray.air.CheckpointConfig`, record of the keyword arguments `tune.py`
passes. -/
structure CheckpointConfig where
  checkpoint_score_attribute : String
  checkpoint_score_order : String
  num_to_keep : Nat
  checkpoint_frequency : Nat
  deriving DecidableEq, Repr

/-- `ray.air.FailureConfig`, record of the keyword argument `tune.py`
passes. -/
structure FailureConfig where
  fail_fast : Bool
  deriving DecidableEq, Repr

/-- `ray.air.RunConfig`, record of the claim-relevant keyword arguments
`tune.py` passes (callbacks, sync config and log_to_file omitted). -/
structure RunConfig where
  name : String
  stop : CombinedStopper
  checkpoint_config : CheckpointConfig
  failure_config : FailureConfig
  deriving DecidableEq, Repr

/-- The resource dict `{"gpu": ..., "cpu": ...}` passed to
`tune.with_resources`. -/
structure Resources where
  gpu : Nat
  cpu : Nat
  deriving DecidableEq, Repr

/-- `ray.tune.TuneConfig`, record of the keyword arguments `tune.py`
passes. -/
structure TuneConfig where
  scheduler : Option ASHAScheduler
  num_samples : Int
  search_alg : OptunaSearch
  deriving DecidableEq, Repr

/-- `ray.tune.Tuner` as built by `Dispatcher.get_tuner`: the trainable's
resource binding plus tune and run configuration. -/
structure Tuner where
  resources : Resources
  tune_config : TuneConfig
  run_config : RunConfig
  deriving DecidableEq, Repr

/-- A Python exception raised during campaign configuration
(`ValueError` in `get_timeout_stopper`). -/
inductive ConfigError
  | valueError (msg : String)
  deriving DecidableEq, Repr

/-- `get_timeout_stopper` (tune.py lines 90-100): `None` maps to no stopper;
a string is handed to `pytimeparse.parse` (external, threaded through as
`parse`); an unparseable string raises `ValueError`; otherwise a
`TimeoutStopper` over the parsed seconds is returned. -/
def get_timeout_stopper (parse : String → Option Int) :
    Option String → Except ConfigError (Option TimeoutStopper)
  | none => .ok none
  | some timeout =>
    match parse timeout with
    | none => .error (.valueError timeoutErrorMsg)
    | some timeout_seconds => .ok (some ⟨timeout_seconds⟩)

/-- The state of a `Dispatcher` object after `__init__` has run: one field per
attribute set in `__init__` (tune.py lines 117-174); wandb metadata (`tags`,
`group`, `note`) is carried but unused by the modelled methods.
`additional_stoppers` holds optional values because the class comment allows
constituents to be `None` (they are filtered out in `get_stoppers`). -/
structure Dispatcher where
  test : Bool
  gpu : Bool
  restore : Option String
  enqueue : Option (List String)
  only_enqueued : Bool
  fixed : Option String
  grace_period : Nat
  timeout : Option String
  tags : Option (List String)
  group : Option String
  note : Option String
  fail_slow : Bool
  dname : String
  metric : String
  no_improvement_patience : Nat
  no_tune : Bool
  num_samples : Option Int
  no_scheduler : Bool
  local_mode : Bool
  additional_stoppers : List (Option Stopper)
  deriving DecidableEq, Repr

/-- The arguments of `Dispatcher.__init__` with their Python default values
(`local` is a Lean keyword, hence the field name `local_mode`). -/
structure DispatcherArgs where
  test : Bool := false
  gpu : Bool := false
  restore : Option String := none
  enqueue : Option (List String) := none
  only_enqueued : Bool := false
  fixed : Option String := none
  timeout : Option String := none
  tags : Option (List String) := none
  group : Option String := none
  note : Option String := none
  fail_slow : Bool := false
  dname : String := "tcn"
  metric : String := "trk.double_majority_pt1.5"
  no_tune : Bool := false
  num_samples : Option Int := none
  no_scheduler : Bool := false
  local_mode : Bool := false
  grace_period : Nat := 3
  no_improvement_patience : Nat := 10
  additional_stoppers : Option (List (Option Stopper)) := none
  deriving Repr

/-- The keyword-only parameter names accepted by `Dispatcher.__init__`
(tune.py lines 117-142); any other keyword raises `TypeError` in Python. -/
def dispatcherInitKwargs : List String :=
  ["test", "gpu", "restore", "enqueue", "only_enqueued", "fixed", "timeout",
   "tags", "group", "note", "fail_slow", "dname", "metric", "no_tune",
   "num_samples", "no_scheduler", "local",
   "grace_period", "no_improvement_patience", "additional_stoppers"]

/-- `Dispatcher.__init__` (tune.py lines 117-174): copies every argument to an
attribute, appends `"_test"` to `dname` in test mode when not already present,
and defaults `additional_stoppers` to the empty list. -/
def Dispatcher.init (a : DispatcherArgs) : Dispatcher :=
  { test := a.test
    gpu := a.gpu
    restore := a.restore
    enqueue := a.enqueue
    only_enqueued := a.only_enqueued
    fixed := a.fixed
    grace_period := a.grace_period
    timeout := a.timeout
    tags := a.tags
    group := a.group
    note := a.note
    fail_slow := a.fail_slow
    dname := if a.test && !(pyEndsWith a.dname testSuffix) then a.dname ++ testSuffix else a.dname
    metric := a.metric
    no_improvement_patience := a.no_improvement_patience
    no_tune := a.no_tune
    num_samples := a.num_samples
    no_scheduler := a.no_scheduler
    local_mode := a.local_mode
    additional_stoppers := a.additional_stoppers.getD [] }

/-- `Dispatcher.points_to_evaluate` (cached property, tune.py lines 252-254):
delegates to `get_points_to_evaluate` from the external config module,
threaded through as `getPoints`. -/
def Dispatcher.points_to_evaluate (getPoints : Option (List String) → List PyDict)
    (d : Dispatcher) : List PyDict :=
  getPoints d.enqueue

/-- `Dispatcher.get_no_improvement_stopper` (tune.py lines 213-219). -/
def Dispatcher.get_no_improvement_stopper (d : Dispatcher) : NoImprovementTrialStopper :=
  { metric := d.metric
    patience := d.no_improvement_patience
    mode := "max"
    grace_period := d.grace_period }

/-- `Dispatcher.get_stoppers` (tune.py lines 221-232): the no-improvement
stopper plus the additional stoppers, then the timeout stopper when
`get_timeout_stopper` returns one, then `MaximumIterationStopper(1)` in test
mode; `None` entries are filtered out at the end. -/
def Dispatcher.get_stoppers (parse : String → Option Int) (d : Dispatcher) :
    Except ConfigError (List Stopper) :=
  match get_timeout_stopper parse d.timeout with
  | .error e => .error e
  | .ok timeout_stopper =>
    let stoppers : List (Option Stopper) :=
      some (.noImprovement d.get_no_improvement_stopper) :: d.additional_stoppers
    let stoppers : List (Option Stopper) :=
      match timeout_stopper with
      | some t => stoppers ++ [some (.timeout t)]
      | none => stoppers
    let stoppers : List (Option Stopper) :=
      if d.test then stoppers ++ [some (.maxIteration ⟨1⟩)] else stoppers
    .ok (stoppers.filterMap id)

/-- `Dispatcher.get_optuna_search` (tune.py lines 256-270): `read_json` of the
external config module is threaded through as `readJson`. -/
def Dispatcher.get_optuna_search (readJson : String → PyDict)
    (getPoints : Option (List String) → List PyDict) (d : Dispatcher) : OptunaSearch :=
  let fixed_config : Option PyDict := d.fixed.map readJson
  { space_test := d.test
    space_fixed := fixed_config
    metric := d.metric
    mode := "max"
    points_to_evaluate := d.points_to_evaluate getPoints
    restored_from := d.restore }

/-- `Dispatcher.get_num_samples` (tune.py lines 272-281). -/
def Dispatcher.get_num_samples (getPoints : Option (List String) → List PyDict)
    (d : Dispatcher) : Int :=
  if d.test then 1
  else if d.only_enqueued then (d.points_to_evaluate getPoints).length
  else
    match d.num_samples with
    | some n => n
    | none => 20

/-- `Dispatcher.get_scheduler` (tune.py lines 283-291): `None` (FIFO) when
`no_scheduler` is set, else an ASHA scheduler. -/
def Dispatcher.get_scheduler (d : Dispatcher) : Option ASHAScheduler :=
  if d.no_scheduler then none
  else some { metric := d.metric, mode := "max", grace_period := d.grace_period }

/-- `Dispatcher.get_tune_config` (tune.py lines 293-301). -/
def Dispatcher.get_tune_config (readJson : String → PyDict)
    (getPoints : Option (List String) → List PyDict) (d : Dispatcher) : TuneConfig :=
  { scheduler := d.get_scheduler
    num_samples := d.get_num_samples getPoints
    search_alg := d.get_optuna_search readJson getPoints }

/-- `Dispatcher.get_checkpoint_config` (tune.py lines 303-309). -/
def Dispatcher.get_checkpoint_config (d : Dispatcher) : CheckpointConfig :=
  { checkpoint_score_attribute := d.metric
    checkpoint_score_order := "max"
    num_to_keep := 5
    checkpoint_frequency := 1 }

/-- `Dispatcher.get_run_config` (tune.py lines 311-322). -/
def Dispatcher.get_run_config (parse : String → Option Int) (d : Dispatcher) :
    Except ConfigError RunConfig :=
  match d.get_stoppers parse with
  | .error e => .error e
  | .ok stoppers =>
    .ok
      { name := d.dname
        stop := ⟨stoppers⟩
        checkpoint_config := d.get_checkpoint_config
        failure_config := { fail_fast := !d.fail_slow } }

/-- `Dispatcher.get_tuner` (tune.py lines 198-211): `cpus_per_gpu` is the
`server.cpus_per_gpu` attribute of the external `della` server profile. -/
def Dispatcher.get_tuner (cpus_per_gpu : Nat) (parse : String → Option Int)
    (readJson : String → PyDict) (getPoints : Option (List String) → List PyDict)
    (d : Dispatcher) : Except ConfigError Tuner :=
  match d.get_run_config parse with
  | .error e => .error e
  | .ok run_config =>
    .ok
      { resources :=
          { gpu := if d.gpu then 1 else 0
            cpu := if !d.test then cpus_per_gpu else 1 }
        tune_config := d.get_tune_config readJson getPoints
        run_config := run_config }

/-- A checkpoint record as retained by ray's checkpoint bookkeeping:
trial, iteration and the value of the score attribute there. -/
structure CheckpointRecord where
  trial_id : Nat
  iteration : Nat
  metric_value : Int
  deriving DecidableEq, Repr

/-- Modelled from the spec: the ranking used by ray's checkpoint retention
(external library) under a `checkpoint_score_order` of `"max"` or `"min"`. -/
def betterRecord (order : String) (a b : CheckpointRecord) : Bool :=
  if order = "min" then decide (a.metric_value ≤ b.metric_value)
  else decide (b.metric_value ≤ a.metric_value)

/-- Modelled from the spec: insert a record into the ranked retained list,
best first. -/
def insertRanked (order : String) (r : CheckpointRecord) :
    List CheckpointRecord → List CheckpointRecord
  | [] => [r]
  | x :: xs =>
    if betterRecord order r x then r :: x :: xs else x :: insertRanked order r xs

/-- Modelled from the spec: ray's checkpoint retention (external library)
keeps at most `num_to_keep` records ranked by the score attribute under the
score order; an insertion that overflows capacity drops the worst record. -/
def retentionInsert (order : String) (num_to_keep : Nat)
    (kept : List CheckpointRecord) (r : CheckpointRecord) : List CheckpointRecord :=
  (insertRanked order r kept).take num_to_keep

/-- Claim-version definition (C1's words, for comparison with
`Dispatcher.get_num_samples`): the explicitly given trial count when one is
provided; otherwise the seed-queue length in only-enqueued mode; otherwise
the default. -/
def numSamplesClaimC1 (getPoints : Option (List String) → List PyDict)
    (d : Dispatcher) : Int :=
  match d.num_samples with
  | some n => n
  | none =>
    if d.only_enqueued then (d.points_to_evaluate getPoints).length else 20

/-- The observable outcome of `Dispatcher.__call__`. -/
inductive CallOutcome
  | assertionError
  | systemExit (code : Nat) (stepBatches : List Nat)
  | configError (e : ConfigError)
  | results (t : Tuner)
  deriving DecidableEq, Repr

/-- `simple_run_without_tune` (tune.py lines 103-113): asks optuna for a fresh
trial, builds a config with `suggest_config(trial, test=True)` (modelled by
its `test` keyword), asserts `config["test"]` is truthy, steps the trainable
twice with `max_batches=1`, and raises `SystemExit(0)`. -/
def simple_run_without_tune (suggest_config : Bool → PyDict) : CallOutcome :=
  let config := suggest_config true
  if pyTruthy (config.lookup testKey) then .systemExit 0 [1, 1]
  else .assertionError

/-- `Dispatcher.__call__` (tune.py lines 176-196): with `no_tune` set it
asserts test mode and runs `simple_run_without_tune`; otherwise it builds the
tuner and fits it (the fit itself is external; the outcome records the tuner
whose result grid is returned). -/
def Dispatcher.call (cpus_per_gpu : Nat) (parse : String → Option Int)
    (readJson : String → PyDict) (getPoints : Option (List String) → List PyDict)
    (suggest_config : Bool → PyDict) (d : Dispatcher) : CallOutcome :=
  if d.no_tune then
    if d.test then simple_run_without_tune suggest_config
    else .assertionError
  else
    match d.get_tuner cpus_per_gpu parse readJson getPoints with
    | .error e => .configError e
    | .ok t => .results t

/-- A dispatcher built from all-default constructor arguments. -/
def dDefault : Dispatcher := Dispatcher.init {}

/-- A seed-queue loader for concrete evaluations: one enqueued point. -/
def onePointQueue : Option (List String) → List PyDict :=
  fun _ => [[(testKey, PyValue.bool true)]]

/-- A parseable timeout string used in concrete evaluations. -/
def goodTimeout : String := "1h13m"

/-- An unparseable timeout string used in concrete evaluations. -/
def badTimeout : String := "2 potatoes"

/-- A time parser for concrete evaluations: accepts only the string `1h13m`
(4380 seconds). -/
def parse1h13m : String → Option Int :=
  fun s => if s = goodTimeout then some 4380 else none

/-- A fixed-config reader for concrete evaluations. -/
def readJsonEmpty : String → PyDict := fun _ => []

/-- A suggest-config callable for concrete evaluations that stores its test
flag in the produced config, as the real ones do. -/
def suggestConfigEx : Bool → PyDict := fun t => [(testKey, PyValue.bool t)]

/-- A dispatcher configured with BOTH an explicit trial count and
only-enqueued mode (the configuration on which claim C1's priority order is
decided). -/
def dBothCounts : Dispatcher :=
  { dDefault with only_enqueued := true, num_samples := some 5 }

/-- A dispatcher used to evaluate the stopping composite concretely: test
mode on, a parseable timeout, one custom additional stopper and one `None`
entry (which `get_stoppers` filters out). -/
def dStoppers : Dispatcher :=
  { dDefault with
    test := true
    timeout := some goodTimeout
    additional_stoppers := [some (.custom 0), none] }

/-- The stopper list that `dStoppers.get_stoppers parse1h13m` produces. -/
def stoppersEx : List Stopper :=
  [.noImprovement dStoppers.get_no_improvement_stopper, .custom 0,
   .timeout ⟨4380⟩, .maxIteration ⟨1⟩]

/-- Helper: appending a suffix makes the string end with it. -/
theorem pyEndsWith_append (s t : String) : pyEndsWith (s ++ t) t = true := by
  simp [pyEndsWith, String.data_append]

/-- Helper: membership in `filterMap id` is membership of the `some` value. -/
theorem mem_filterMap_id {α : Type} (x : α) (l : List (Option α)) :
    x ∈ l.filterMap id ↔ some x ∈ l := by
  simp [List.mem_filterMap, id]

/-- C4: `get_timeout_stopper` applied to `None` returns no stopper; applied to
a string the external parser cannot turn into seconds it raises the fatal
`ValueError`; applied to a parseable string it returns a `TimeoutStopper`
holding exactly the parsed number of seconds. -/
theorem get_timeout_stopper_spec (parse : String → Option Int) :
    get_timeout_stopper parse none = .ok none ∧
    (∀ s, parse s = none →
      get_timeout_stopper parse (some s) = .error (.valueError timeoutErrorMsg)) ∧
    (∀ s n, parse s = some n →
      get_timeout_stopper parse (some s) = .ok (some ⟨n⟩)) := by
  refine ⟨rfl, fun s hs => ?_, fun s n hs => ?_⟩ <;> simp [get_timeout_stopper, hs]

/-- C4 witness: evaluated with a concrete parser on an unparseable and on a
parseable timeout string. -/
theorem get_timeout_stopper_spec_witness :
    get_timeout_stopper parse1h13m (some goodTimeout) = .ok (some ⟨4380⟩) ∧
    get_timeout_stopper parse1h13m (some badTimeout) = .error (.valueError timeoutErrorMsg) :=
  ⟨(get_timeout_stopper_spec parse1h13m).2.2 goodTimeout 4380 (by decide),
   (get_timeout_stopper_spec parse1h13m).2.1 badTimeout (by decide)⟩

/-- C5: the failure policy of the run configuration is fail-fast exactly when
fail-slow is not configured. -/
theorem get_run_config_fail_fast (parse : String → Option Int) (d : Dispatcher)
    (rc : RunConfig) (h : d.get_run_config parse = .ok rc) :
    rc.failure_config.fail_fast = !d.fail_slow := by
  cases hs : d.get_stoppers parse <;> simp [Dispatcher.get_run_config, hs] at h
  rw [← h]

/-- C5 witness: the default dispatcher (fail-slow unset) yields a fail-fast
run configuration. -/
theorem get_run_config_fail_fast_witness :
    ∃ rc, dDefault.get_run_config parse1h13m = .ok rc ∧
      rc.failure_config.fail_fast = true := by
  refine ⟨_, rfl, ?_⟩
  rw [get_run_config_fail_fast parse1h13m dDefault _ rfl]
  decide

/-- C6: `get_scheduler` returns no scheduler (FIFO) exactly when the
no-scheduler option is set; otherwise it returns an ASHA scheduler configured
with the campaign metric and the configured grace period. -/
theorem get_scheduler_spec (d : Dispatcher) :
    (d.get_scheduler = none ↔ d.no_scheduler = true) ∧
    (d.no_scheduler = false →
      d.get_scheduler =
        some { metric := d.metric, mode := "max", grace_period := d.grace_period }) := by
  cases h : d.no_scheduler <;> simp [Dispatcher.get_scheduler, h]

/-- C6 witness: the default dispatcher has the scheduler enabled and gets the
ASHA scheduler on its metric with grace period 3. -/
theorem get_scheduler_spec_witness :
    dDefault.get_scheduler =
      some { metric := dDefault.metric, mode := "max", grace_period := dDefault.grace_period } :=
  (get_scheduler_spec dDefault).2 (by decide)

/-- C1 counterexample: a dispatcher with an explicit trial count of 5 AND
only-enqueued mode set over a one-point seed queue. The claim predicts the
explicit count 5 (claim-version definition `numSamplesClaimC1`); the code
checks only-enqueued first and returns the seed-queue length 1. -/
theorem get_num_samples_claim_cex :
    dBothCounts.num_samples = some 5 ∧
    Dispatcher.get_num_samples onePointQueue dBothCounts = 1 ∧
    numSamplesClaimC1 onePointQueue dBothCounts = 5 ∧
    (1 : Int) ≠ 5 := by
  refine ⟨by decide, by decide, by decide, by decide⟩

/-- C1 amended: `get_num_samples` returns 1 in test mode; otherwise the
seed-queue length when only-enqueued mode is set (even if an explicit count
was also given); otherwise the explicitly given trial count when one is
provided; otherwise the default 20. -/
theorem get_num_samples_spec (getPoints : Option (List String) → List PyDict)
    (d : Dispatcher) :
    (d.test = true → d.get_num_samples getPoints = 1) ∧
    (d.test = false → d.only_enqueued = true →
      d.get_num_samples getPoints = (d.points_to_evaluate getPoints).length) ∧
    (∀ n, d.test = false → d.only_enqueued = false → d.num_samples = some n →
      d.get_num_samples getPoints = n) ∧
    (d.test = false → d.only_enqueued = false → d.num_samples = none →
      d.get_num_samples getPoints = 20) := by
  refine ⟨fun ht => by simp [Dispatcher.get_num_samples, ht],
         fun ht ho => by simp [Dispatcher.get_num_samples, ht, ho],
         fun n ht ho hn => by simp [Dispatcher.get_num_samples, ht, ho, hn],
         fun ht ho hn => by simp [Dispatcher.get_num_samples, ht, ho, hn]⟩

/-- C1 witness: the amended priority evaluated on concrete dispatchers. -/
theorem get_num_samples_spec_witness :
    Dispatcher.get_num_samples onePointQueue
      { dDefault with only_enqueued := true } = 1 ∧
    Dispatcher.get_num_samples onePointQueue { dDefault with num_samples := some 7 } = 7 ∧
    Dispatcher.get_num_samples onePointQueue dDefault = 20 :=
  ⟨(get_num_samples_spec onePointQueue _).2.1 (by decide) (by decide),
   (get_num_samples_spec onePointQueue _).2.2.1 7 (by decide) (by decide) (by decide),
   (get_num_samples_spec onePointQueue _).2.2.2 (by decide) (by decide) (by decide)⟩

/-- C2: the comparison mode is NOT a configurable campaign parameter: for
every dispatcher state, the no-improvement stopper, the optuna search, the
checkpoint scoring order and the ASHA scheduler (when enabled) all use the
hardcoded mode `"max"`, and `Dispatcher.__init__` accepts no `comparison`
keyword (so the call `MyDispatcher(..., comparison="min")` in
`scripts/tune_gc.py` raises `TypeError`). -/
theorem comparison_mode_hardcoded (readJson : String → PyDict)
    (getPoints : Option (List String) → List PyDict) (d : Dispatcher) :
    d.get_no_improvement_stopper.mode = "max" ∧
    (d.get_optuna_search readJson getPoints).mode = "max" ∧
    d.get_checkpoint_config.checkpoint_score_order = "max" ∧
    (∀ s, d.get_scheduler = some s → s.mode = "max") ∧
    "comparison" ∉ dispatcherInitKwargs := by
  refine ⟨rfl, rfl, rfl, fun s hs => ?_, by decide⟩
  cases h : d.no_scheduler <;> simp [Dispatcher.get_scheduler, h] at hs
  rw [← hs]

/-- C2 witness: the hardcoded scheduler mode evaluated on the default
dispatcher. -/
theorem comparison_mode_hardcoded_witness :
    ({ metric := dDefault.metric, mode := "max",
       grace_period := dDefault.grace_period } : ASHAScheduler).mode = "max" :=
  (comparison_mode_hardcoded readJsonEmpty onePointQueue dDefault).2.2.2.1 _ (by decide)

/-- C7 counterexample: the checkpoint retention count is not configurable —
no two dispatcher states, however configured, disagree on `num_to_keep`
(it is the hardcoded constant 5), so there is no campaign parameter K. -/
theorem checkpoint_k_not_configurable_cex :
    ¬ ∃ d1 d2 : Dispatcher,
      d1.get_checkpoint_config.num_to_keep ≠ d2.get_checkpoint_config.num_to_keep := by
  rintro ⟨d1, d2, h⟩
  exact h rfl

/-- C7 amended: the checkpoint configuration scores records by the campaign
metric in the hardcoded `"max"` order, records a checkpoint every iteration
(frequency 1), and retains at most the hardcoded constant 5 records: an
insertion into the retained collection never exceeds that bound. -/
theorem get_checkpoint_config_spec (d : Dispatcher) :
    d.get_checkpoint_config =
      { checkpoint_score_attribute := d.metric, checkpoint_score_order := "max",
        num_to_keep := 5, checkpoint_frequency := 1 } ∧
    (∀ kept r,
      (retentionInsert d.get_checkpoint_config.checkpoint_score_order
          d.get_checkpoint_config.num_to_keep kept r).length ≤
        d.get_checkpoint_config.num_to_keep) := by
  refine ⟨rfl, fun kept r => ?_⟩
  simp only [retentionInsert]
  exact List.length_take_le _ _

/-- C8: each trial's resource reservation has GPU count at most 1 — exactly 1
when the gpu option is set, 0 otherwise — and CPU count equal to the server's
cpus-per-gpu value, reduced to 1 in test mode. -/
theorem get_tuner_resources (cpus_per_gpu : Nat) (parse : String → Option Int)
    (readJson : String → PyDict) (getPoints : Option (List String) → List PyDict)
    (d : Dispatcher) (t : Tuner)
    (h : d.get_tuner cpus_per_gpu parse readJson getPoints = .ok t) :
    t.resources.gpu ≤ 1 ∧
    (t.resources.gpu = if d.gpu then 1 else 0) ∧
    (t.resources.cpu = if d.test then 1 else cpus_per_gpu) := by
  cases hr : d.get_run_config parse <;> simp [Dispatcher.get_tuner, hr] at h
  rw [← h]
  cases hg : d.gpu <;> cases ht : d.test <;> simp

/-- C8 witness: concrete resource reservations for a gpu dispatcher in
regular mode on a 12-cpus-per-gpu server. -/
theorem get_tuner_resources_witness :
    ∃ t, Dispatcher.get_tuner 12 parse1h13m readJsonEmpty onePointQueue
        { dDefault with gpu := true } = .ok t ∧
      t.resources.gpu = 1 ∧ t.resources.cpu = 12 := by
  refine ⟨_, rfl, ?_, ?_⟩
  · rw [(get_tuner_resources 12 parse1h13m readJsonEmpty onePointQueue
      { dDefault with gpu := true } _ rfl).2.1]
    decide
  · rw [(get_tuner_resources 12 parse1h13m readJsonEmpty onePointQueue
      { dDefault with gpu := true } _ rfl).2.2]
    decide

/-- C9: test-mode output naming is idempotent: after `__init__` in test mode
the output directory name ends with `"_test"`; a `dname` already ending with
`"_test"` is left unchanged; outside test mode `dname` is never modified. -/
theorem init_dname_spec (a : DispatcherArgs) :
    (a.test = true → pyEndsWith (Dispatcher.init a).dname testSuffix = true) ∧
    (a.test = true → pyEndsWith a.dname testSuffix = true →
      (Dispatcher.init a).dname = a.dname) ∧
    (a.test = false → (Dispatcher.init a).dname = a.dname) := by
  refine ⟨fun ht => ?_, fun ht he => ?_, fun ht => ?_⟩
  · cases he : pyEndsWith a.dname testSuffix
    · have hd : (Dispatcher.init a).dname = a.dname ++ testSuffix := by
        simp [Dispatcher.init, ht, he]
      rw [hd]
      exact pyEndsWith_append a.dname testSuffix
    · have hd : (Dispatcher.init a).dname = a.dname := by
        simp [Dispatcher.init, ht, he]
      rw [hd]
      exact he
  · simp [Dispatcher.init, ht, he]
  · simp [Dispatcher.init, ht]

/-- C9 witness: construction in test mode appends the suffix to the default
name `tcn`, leaves an already-suffixed name alone, and outside test mode
leaves the default name alone. -/
theorem init_dname_spec_witness :
    pyEndsWith (Dispatcher.init { test := true }).dname testSuffix = true ∧
    (Dispatcher.init { test := true, dname := "tcn_test" }).dname = "tcn_test" ∧
    (Dispatcher.init {}).dname = "tcn" :=
  ⟨(init_dname_spec { test := true }).1 rfl,
   (init_dname_spec { test := true, dname := "tcn_test" }).2.1 rfl (by decide),
   (init_dname_spec {}).2.2 rfl⟩

/-- C10: invoking a dispatcher with the no-tune option requires test mode:
with test unset the call fails the assertion before any tuning work; with
test set (and a suggest-config that honours its test flag) it runs one
configuration for two single-batch steps and exits with `SystemExit(0)`,
never returning a result grid from a tuner. -/
theorem call_no_tune_spec (cpus_per_gpu : Nat) (parse : String → Option Int)
    (readJson : String → PyDict) (getPoints : Option (List String) → List PyDict)
    (sc : Bool → PyDict) (d : Dispatcher) (hnt : d.no_tune = true) :
    (d.test = false →
      Dispatcher.call cpus_per_gpu parse readJson getPoints sc d = .assertionError) ∧
    (d.test = true → pyTruthy ((sc true).lookup testKey) = true →
      Dispatcher.call cpus_per_gpu parse readJson getPoints sc d = .systemExit 0 [1, 1] ∧
      ∀ t, Dispatcher.call cpus_per_gpu parse readJson getPoints sc d ≠ .results t) := by
  constructor
  · intro ht
    simp [Dispatcher.call, hnt, ht]
  · intro ht hc
    constructor
    · simp [Dispatcher.call, simple_run_without_tune, hnt, ht, hc]
    · intro t
      simp [Dispatcher.call, simple_run_without_tune, hnt, ht, hc]

/-- C10 witness: concrete no-tune calls, with and without test mode. -/
theorem call_no_tune_spec_witness :
    Dispatcher.call 12 parse1h13m readJsonEmpty onePointQueue suggestConfigEx
      { dDefault with no_tune := true, test := true } = .systemExit 0 [1, 1] ∧
    Dispatcher.call 12 parse1h13m readJsonEmpty onePointQueue suggestConfigEx
      { dDefault with no_tune := true } = .assertionError :=
  ⟨((call_no_tune_spec 12 parse1h13m readJsonEmpty onePointQueue suggestConfigEx
      { dDefault with no_tune := true, test := true } (by decide)).2
      (by decide) (by decide)).1,
   (call_no_tune_spec 12 parse1h13m readJsonEmpty onePointQueue suggestConfigEx
      { dDefault with no_tune := true } (by decide)).1 (by decide)⟩

/-- C3: when `get_stoppers` succeeds, the composite stopper list contains the
no-improvement stopper and every (non-`None`) additional stopper; it contains
a timeout stopper exactly when a timeout string was supplied, and
`MaximumIterationStopper(1)` exactly when test mode is set (provided the
caller-supplied additional stoppers are not themselves timeout or
maximum-iteration stoppers); and a `True` verdict from any single constituent
makes the combined stopper stop the trial (logical OR). -/
theorem get_stoppers_spec (parse : String → Option Int) (d : Dispatcher)
    (l : List Stopper)
    (hadd : ∀ s, some s ∈ d.additional_stoppers →
      (∀ ts, s ≠ .timeout ts) ∧ (∀ ms, s ≠ .maxIteration ms))
    (h : d.get_stoppers parse = .ok l) :
    Stopper.noImprovement d.get_no_improvement_stopper ∈ l ∧
    (∀ s, some s ∈ d.additional_stoppers → s ∈ l) ∧
    ((∃ ts, Stopper.timeout ts ∈ l) ↔ d.timeout.isSome = true) ∧
    ((Stopper.maxIteration ⟨1⟩ ∈ l) ↔ d.test = true) ∧
    (∀ verdict s, s ∈ l → verdict s = true →
      CombinedStopper.should_stop ⟨l⟩ verdict = true) := by
  have hOr : ∀ verdict s, s ∈ l → verdict s = true →
      CombinedStopper.should_stop ⟨l⟩ verdict = true := by
    intro verdict s hs hv
    simp only [CombinedStopper.should_stop, List.any_eq_true]
    exact ⟨s, hs, hv⟩
  cases htime : d.timeout with
  | none =>
    cases htest : d.test with
    | false =>
      simp [Dispatcher.get_stoppers, get_timeout_stopper, htime, htest] at h
      subst h
      refine ⟨List.mem_cons_self _ _,
        fun s hs => List.mem_cons_of_mem _ ((mem_filterMap_id s _).mpr hs),
        iff_of_false ?_ (by simp), iff_of_false ?_ (by simp), hOr⟩
      · rintro ⟨ts2, hts⟩
        simp [mem_filterMap_id] at hts
        exact (hadd _ hts).1 ts2 rfl
      · intro hts
        simp [mem_filterMap_id] at hts
        exact (hadd _ hts).2 ⟨1⟩ rfl
    | true =>
      simp [Dispatcher.get_stoppers, get_timeout_stopper, htime, htest] at h
      subst h
      refine ⟨List.mem_cons_self _ _,
        fun s hs => by simp [mem_filterMap_id]; tauto,
        iff_of_false ?_ (by simp), iff_of_true (by simp) rfl, hOr⟩
      rintro ⟨ts2, hts⟩
      simp [mem_filterMap_id] at hts
      exact (hadd _ hts).1 ts2 rfl
  | some tstr =>
    cases hp : parse tstr with
    | none =>
      simp [Dispatcher.get_stoppers, get_timeout_stopper, htime, hp] at h
    | some secs =>
      cases htest : d.test with
      | false =>
        simp [Dispatcher.get_stoppers, get_timeout_stopper, htime, hp, htest] at h
        subst h
        refine ⟨List.mem_cons_self _ _,
          fun s hs => by simp [mem_filterMap_id]; tauto,
          iff_of_true ⟨⟨secs⟩, by simp⟩ rfl, iff_of_false ?_ (by simp), hOr⟩
        intro hts
        simp [mem_filterMap_id] at hts
        exact (hadd _ hts).2 ⟨1⟩ rfl
      | true =>
        simp [Dispatcher.get_stoppers, get_timeout_stopper, htime, hp, htest] at h
        subst h
        refine ⟨List.mem_cons_self _ _,
          fun s hs => by simp [mem_filterMap_id]; tauto,
          iff_of_true ⟨⟨secs⟩, by simp⟩ rfl, iff_of_true (by simp) rfl, hOr⟩

/-- C3 witness: the composite built for `dStoppers` (test mode, parseable
timeout, one custom additional stopper) contains the no-improvement stopper,
the custom stopper, a timeout stopper and the iteration-1 stopper. -/
theorem get_stoppers_spec_witness :
    Stopper.noImprovement dStoppers.get_no_improvement_stopper ∈ stoppersEx ∧
    Stopper.custom 0 ∈ stoppersEx ∧
    (∃ ts, Stopper.timeout ts ∈ stoppersEx) ∧
    Stopper.maxIteration ⟨1⟩ ∈ stoppersEx :=
  have hspec := get_stoppers_spec parse1h13m dStoppers stoppersEx
    (by
      intro s hs
      simp [dStoppers] at hs
      subst hs
      exact ⟨fun ts => by simp, fun ms => by simp⟩)
    rfl
  ⟨hspec.1, hspec.2.1 (.custom 0) (by simp [dStoppers]),
   hspec.2.2.1.mpr (by decide), hspec.2.2.2.1.mpr (by decide)⟩
